import Mathlib

/-!
Verification of the thumbnail-service pipeline (`thumbservice/thumbservice.py`)
against its natural-language specification.

The Python source is shallowly embedded: pure helpers become Lean functions;
the outcomes of external effects (HTTP requests, the S3 client, the FITS
alignment and conversion libraries, the filesystem) are supplied explicitly as
oracle data, and the on-disk state is threaded as a `Finset String` of the
paths that currently exist.  Fallible code returns `Except`.
-/

namespace ThumbService

/-- Diagnostic payload attached to a `ThumbnailAppException`.
`empty` models both `payload=None` and `payload={}` (their `to_dict`
renderings coincide); `urlParams` models `{'url': url, 'params': params}`;
`responseBody` models `{'response': response.json()}` where the parsed JSON
body is abstracted as a string. -/
inductive Payload where
  | empty : Payload
  | urlParams (url : String) (params : Option String) : Payload
  | responseBody (v : String) : Payload
deriving DecidableEq, Repr

/-- Embeds the `ThumbnailAppException` data: `message`, `status_code`
(default 500 in the source, always given explicitly at the raise sites we
model) and the diagnostic payload. -/
structure AppErr where
  message : String
  status_code : Nat
  payload : Payload
deriving DecidableEq, Repr

/-- Outcome of the single `requests.get` performed by `get_response`:
a timeout, an exception with no response object (e.g. connection error),
or a completed response carrying a status code and, when the body parses
as JSON, the parsed body (abstracted as a string). -/
inductive HttpOutcome where
  | timeout : HttpOutcome
  | noResponse : HttpOutcome
  | response (status_code : Nat) (body_json : Option String) : HttpOutcome
deriving DecidableEq, Repr

/-- Python requests raise_for_status raises exactly for 4xx and 5xx. -/
def raise_for_status_raises (s : Nat) : Bool :=
  (400 ≤ s) && (s < 600)

/-- Embedding of `get_response` (thumbservice.py lines 54-77).  The outcome of
the underlying `requests.get` is an explicit input; the successful result is
the response, abstracted as its status code and optional parsed JSON body. -/
def get_response (url : String) (params : Option String) (o : HttpOutcome) :
    Except AppErr (Nat × Option String) :=
  match o with
  | .timeout =>
      .error { message := "Timeout while accessing resource", status_code := 504,
               payload := .urlParams url params }
  | .noResponse =>
      -- `getattr(response, 'status_code', None)` is `None`: normalized to 502.
      .error { message := "Got error response", status_code := 502, payload := .empty }
  | .response s body =>
      if raise_for_status_raises s then
        if (500 ≤ s) && (s < 600) then
          .error { message := "Got error response", status_code := 502, payload := .empty }
        else if s == 404 then
          .error { message := "Not found", status_code := 404, payload := .empty }
        else
          .error { message := "Got error response", status_code := s,
                   payload := match body with
                              | some v => .responseBody v
                              | none => .empty }
      else
        .ok (s, body)

/-- The amended specification of `get_response`, written from the words of the spec with the one correction the code forces: a response on which the
status check does not raise (status outside 400-599, which includes every
2xx but also e.g. 3xx) is returned unchanged. -/
def get_response_spec (url : String) (params : Option String) (o : HttpOutcome) :
    Except AppErr (Nat × Option String) :=
  match o with
  | .timeout =>
      .error { message := "Timeout while accessing resource", status_code := 504,
               payload := .urlParams url params }
  | .noResponse =>
      .error { message := "Got error response", status_code := 502, payload := .empty }
  | .response s body =>
      if (500 ≤ s) && (s < 600) then
        .error { message := "Got error response", status_code := 502, payload := .empty }
      else if s == 404 then
        .error { message := "Not found", status_code := 404, payload := .empty }
      else if (400 ≤ s) && (s < 500) then
        .error { message := "Got error response", status_code := s,
                 payload := match body with
                            | some v => .responseBody v
                            | none => .empty }
      else
        .ok (s, body)

/-- Embedding of `key_exists` (lines 157-163): the outcome of the
`head_object` call is an explicit input; the bare `except:` maps every
possible error to `False`, so the error type is arbitrary. -/
def key_exists {ε : Type} (head_object : Except ε Unit) : Bool :=
  match head_object with
  | .ok _ => true
  | .error _ => false

/-- Flat rendering of the key-value pairs in a given order, standing for
the text that `repr` produces for the frozenset contents (parameter values
are abstracted as their `repr` strings). -/
def serializePairs : List (String × String) → String
  | [] => ""
  | (k, v) :: rest => "(" ++ k ++ ", " ++ v ++ "); " ++ serializePairs rest

/-- What CPython guarantees about iterating a frozenset built by inserting
the elements of a list: each distinct element appears exactly once — the
iteration order is some permutation of the deduplicated elements.  The
actual order follows the hash-table layout, which depends on the element
hash values (randomized per process for strings via `PYTHONHASHSEED`) and
on the insertion order when slots collide, so it is NOT a function of the
element set alone. -/
def FrozensetOrder (ord : List (String × String) → List (String × String)) : Prop :=
  ∀ l, (ord l).Perm l.dedup

/-- The string `repr(frozenset(items))` hashed by `key_for_jpeg`: the
serialization of the items in the iteration order `ord` that the running
process produces for them. -/
def frozenset_repr (ord : List (String × String) → List (String × String))
    (items : List (String × String)) : String :=
  serializePairs (ord items)

/-- Embedding of `key_for_jpeg` (lines 116-117): the digest
`blake2b(...).hexdigest()` is an arbitrary function `H` of the repr string
of `frozenset(params.items())`, which in turn depends on the iteration
order `ord` the process produces (constrained only by `FrozensetOrder`). -/
def key_for_jpeg (H : String → String)
    (ord : List (String × String) → List (String × String)) (frame_id : Nat)
    (params : List (String × String)) : String :=
  toString frame_id ++ "." ++ H (frozenset_repr ord params) ++ ".jpg"

/-- The fields of an archive frame record used by `rvb_frames`.  Only the
spectral band tag matters for band selection. -/
structure RFrame where
  primary_optical_element : String
deriving DecidableEq, Repr

/-- One band of the `next(f for f in frames if f['primary_optical_element']
in FILTERS_FOR_COLORS[color])` selection inside `rvb_frames`: the first
frame whose band tag is among `filters`, or the 404 raised by the
`StopIteration` handler. -/
def select_color (frames : List RFrame) (filters : List String) : Except AppErr RFrame :=
  match frames.find? (fun f => filters.contains f.primary_optical_element) with
  | some f => .ok f
  | none => .error { message := "RVB frames not found", status_code := 404, payload := .empty }

/-- Embedding of `rvb_frames` (lines 174-188): select the first matching
frame for red (`R`/`rp`), then visual (`V`), then blue (`B`); the first band
with no match raises the 404. -/
def rvb_frames (frames : List RFrame) : Except AppErr (List RFrame) :=
  match select_color frames ["R", "rp"] with
  | .error e => .error e
  | .ok r =>
    match select_color frames ["V"] with
    | .error e => .error e
    | .ok v =>
      match select_color frames ["B"] with
      | .error e => .error e
      | .ok b => .ok [r, v, b]

/-- One identification returned by `make_transforms`: its `ok` flag, and the
outcome of the `affineremap` call performed for it when `ok` (either the
path of the newly written aligned file, or an exception). -/
structure Ident where
  ok : Bool
  result : Except Unit String
deriving Repr

/-- The `for id in identifications` loop of `reproject_files`: accumulate the
aligned image paths (each written to disk by `affineremap`), stopping at the
first exception (which the surrounding `try` catches, keeping the paths
accumulated so far). -/
def alignLoop : List Ident → List String → Finset String → List String × Finset String
  | [], acc, disk => (acc, disk)
  | i :: rest, acc, disk =>
    if i.ok then
      match i.result with
      | .ok p => alignLoop rest (acc ++ [p]) (insert p disk)
      | .error _ => (acc, disk)
    else
      alignLoop rest acc disk

/-- Whether running the alignment loop over `ids` raises (the run stops at
the first `ok` identification whose `affineremap` fails). -/
def loopRaised : List Ident → Bool
  | [] => false
  | i :: rest =>
    if i.ok then
      match i.result with
      | .ok _ => loopRaised rest
      | .error _ => true
    else
      loopRaised rest

/-- The `while len(aligned_images) > 0` cleanup loop of `reproject_files`:
remove each popped path from disk when it exists (erasing an absent path is
the identity, matching the `os.path.exists` guard). -/
def cleanup_aligned (aligned : List String) (disk : Finset String) : Finset String :=
  aligned.foldl (fun d p => d.erase p) disk

/-- The `try` block of `reproject_files`: `make_transforms` either raises
(caught, yielding no aligned images) or yields the identifications fed to
the alignment loop.  The outcome of `make_transforms(ref_image,
images_to_align[1:3])` is the explicit input `mkT`. -/
def reproject_step (mkT : Except Unit (List Ident)) (disk : Finset String) :
    List String × Finset String :=
  match mkT with
  | .error _ => ([], disk)
  | .ok ids => alignLoop ids [] disk

/-- Embedding of `reproject_files` (lines 191-212) over an explicit disk
state: run the guarded alignment attempt, discard (and delete) the aligned
images unless exactly 2 were produced, and return `[ref_image] ++
aligned_images` when that list has 3 entries, the original
`images_to_align` otherwise. -/
def reproject_files (mkT : Except Unit (List Ident)) (ref_image : String)
    (images_to_align : List String) (disk : Finset String) :
    List String × Finset String :=
  let s := reproject_step mkT disk
  let s2 := if s.1.length ≠ 2 then (([] : List String), cleanup_aligned s.1 s.2) else s
  let reprojected_file_list := ref_image :: s2.1
  (if reprojected_file_list.length = 3 then reprojected_file_list else images_to_align, s2.2)

/-- The frame metadata fields consulted by `can_generate_thumbnail_on`.
A JSON field that is absent (or null) is `none`; `request_id` is an integer
or null, so Python truthiness is `some n` with `n ≠ 0`. -/
structure FrameMeta where
  id : Nat
  configuration_type : Option String
  request_id : Option Nat
  filename : Option String
deriving DecidableEq, Repr

/-- Python truthiness of the optional integer `frame.get('request_id')`. -/
def truthyNat : Option Nat → Bool
  | none => false
  | some n => n != 0

/-- Python `str.upper()` on the ASCII configuration-type strings, defined
over the character list so that it evaluates by kernel reduction. -/
def pyUpper (s : String) : String :=
  ⟨s.data.map Char.toUpper⟩

/-- Python `str.endswith(suffix)`, defined over the character lists so that
it evaluates by kernel reduction. -/
def pyEndsWith (s suffix : String) : Bool :=
  suffix.data.reverse.isPrefixOf s.data.reverse

/-- Modelled from the spec: `settings.REQUIRED_FRAME_VALIDATION_KEYS` lives
in `thumbservice/common.py`, which is not under `src/`.  The spec requires
the frame metadata fields that the eligibility check dereferences
unconditionally — `configuration_type` and `filename` — to be present, so
the `all(key in frame.keys() ...)` test is modelled as presence of exactly
those two fields. -/
def frame_has_required_validation_keys (frame : FrameMeta) : Bool :=
  frame.configuration_type.isSome && frame.filename.isSome

/-- The result dict `{'result': ..., 'reason': ...}` of
`can_generate_thumbnail_on`. -/
structure CanResult where
  result : Bool
  reason : String
deriving DecidableEq, Repr

/-- Embedding of `can_generate_thumbnail_on` (lines 80-102).  The allowed
configuration-type sets (`settings.VALID_CONFIGURATION_TYPES` and
`settings.VALID_CONFIGURATION_TYPES_FOR_COLOR_THUMBS`, from the missing
`common.py`) are arbitrary parameters `V` and `VC`; `colorArg` is the raw
`color` query parameter (`none` when absent). -/
def can_generate_thumbnail_on (V VC : List String) (frame : FrameMeta)
    (colorArg : Option String) : CanResult :=
  if !frame_has_required_validation_keys frame then
    { result := false, reason := "Cannot generate thumbnail for given frame" }
  else
    let configuration_type := pyUpper (frame.configuration_type.getD "")
    let is_color_request := (colorArg.getD "false") == "true"
    let is_fits_file := (pyEndsWith (frame.filename.getD "") ".fits")
                     || (pyEndsWith (frame.filename.getD "") ".fits.fz")
    if !(V.contains configuration_type) then
      { result := false,
        reason := "Cannot generate thumbnail for configuration_type=" ++ configuration_type }
    else if is_color_request && !(truthyNat frame.request_id) then
      { result := false,
        reason := "Cannot generate color thumbnail for a frame that does not have a request" }
    else if is_color_request && !(VC.contains configuration_type) then
      { result := false,
        reason := "Cannot generate color thumbnail for configuration_type=" ++ configuration_type }
    else if !is_fits_file then
      { result := false, reason := "Cannot generate thumbnail for non FITS-type frame" }
    else
      { result := true, reason := "" }

/-- The observable pipeline effects whose occurrence the spec constrains:
a raw-frame download (`save_temp_file`), the sibling-frame listing
(`frames_for_requestnum`), band selection (`rvb_frames`), the alignment
attempt (`reproject_files`), conversion (`convert_to_jpg`) and the S3
upload (`upload_to_s3`). -/
inductive Ev where
  | rawFetch : Ev
  | listFrames : Ev
  | bandSelect : Ev
  | align : Ev
  | convert : Ev
  | upload : Ev
deriving DecidableEq, Repr

/-- An exception escaping a pipeline step: either a
`ThumbnailAppException` or any other Python exception. -/
inductive PipelineErr where
  | app (e : AppErr) : PipelineErr
  | other : PipelineErr
deriving DecidableEq, Repr

/-- The on-disk temp files plus the trace of pipeline effects performed so
far. -/
structure PipeState where
  disk : Finset String
  events : List Ev

def addEv (st : PipeState) (e : Ev) : PipeState :=
  { st with events := st.events ++ [e] }

/-- Outcomes of the external effects reached by one `generate_thumbnail`
invocation, supplied as explicit data.  `fetch n` is the n-th
`save_temp_file` call of the run: the unique temp path it opens, and
`none` on download success or the raised exception; `hash` abstracts the
`blake2b` digest in `key_for_jpeg` and `reprOrd` the frozenset iteration
order of the running process; `sign` abstracts `generate_presigned_url`. -/
structure Oracles where
  headObject : Except Unit Unit
  hash : String → String
  reprOrd : List (String × String) → List (String × String)
  sign : String → String
  fetch : Nat → String × Option PipelineErr
  listFrames : Except PipelineErr (List RFrame)
  mkT : Except Unit (List Ident)
  convert : Except PipelineErr String
  upload : Except PipelineErr Unit

/-- Embedding of the `Paths` tracker (lines 215-228): the deduplicated set
of every path ever registered (`_all_paths`) and the current working list
(`paths`). -/
structure Paths where
  all_paths : Finset String
  paths : List String

/-- The set method of Paths: add every path to the retained set and replace the working list. -/
def Paths.set (t : Paths) (ps : List String) : Paths :=
  { all_paths := t.all_paths ∪ ps.toFinset, paths := ps }

/-- Embedding of `save_temp_file` (lines 109-113) for the n-th download of a
run: `open(path, 'wb')` creates the temp file on disk before the download
starts, so the path exists afterwards whether or not `get_response` raised;
the path is returned only on success. -/
def save_temp_file (O : Oracles) (n : Nat) (st : PipeState) :
    Except PipelineErr String × PipeState :=
  let pr := O.fetch n
  let st2 : PipeState := { disk := insert pr.1 st.disk, events := st.events ++ [Ev.rawFetch] }
  match pr.2 with
  | none => (.ok pr.1, st2)
  | some e => (.error e, st2)

/-- The list comprehension `[save_temp_file(frame) for frame in ...]`:
download `k` frames starting at fetch index `n`, stopping at the first
raised exception (partial results are discarded by Python, so only the
path list of a fully successful comprehension is returned). -/
def fetch_frames (O : Oracles) : Nat → Nat → PipeState →
    Except PipelineErr (List String) × PipeState
  | 0, _, st => (.ok [], st)
  | k + 1, n, st =>
    match save_temp_file O n st with
    | (.error e, st2) => (.error e, st2)
    | (.ok p, st2) =>
      match fetch_frames O k (n + 1) st2 with
      | (.ok ps, st3) => (.ok (p :: ps), st3)
      | (.error e, st3) => (.error e, st3)

/-- The acquisition phase of the `try` block of `generate_thumbnail`
(lines 248-254): the single download in grayscale mode; in color mode the
sibling-frame listing, band selection, the three downloads (registered
only when all succeed) and the alignment attempt, whose result replaces
the working set. -/
def gtAcquire (O : Oracles) (is_color : Bool) (st : PipeState) :
    Except PipelineErr Unit × Paths × PipeState :=
  let t : Paths := { all_paths := ∅, paths := [] }
  if !is_color then
    match save_temp_file O 0 st with
    | (.error e, st2) => (.error e, t, st2)
    | (.ok p, st2) => (.ok (), t.set [p], st2)
  else
    let st1 := addEv st Ev.listFrames
    match O.listFrames with
    | .error e => (.error e, t, st1)
    | .ok frames =>
      let st2 := addEv st1 Ev.bandSelect
      match rvb_frames frames with
      | .error e => (.error (PipelineErr.app e), t, st2)
      | .ok sel =>
        match fetch_frames O sel.length 0 st2 with
        | (.error e, st3) => (.error e, t, st3)
        | (.ok ps, st3) =>
          let t1 := t.set ps
          let st4 := addEv st3 Ev.align
          let rp := reproject_files O.mkT (ps.headD "") ps st4.disk
          let t2 := t1.set rp.1
          (.ok (), t2, { disk := rp.2, events := st4.events })

/-- The whole `try` block of `generate_thumbnail` (lines 247-256):
acquisition, then `convert_to_jpg` (which writes the JPEG to disk and sets
`jpg_path` only on success), then `upload_to_s3`.  Returns the outcome of the block,, the final `jpg_path`, the final tracker and the state reaching
the `finally` clause. -/
def gtBody (O : Oracles) (is_color : Bool) (st0 : PipeState) :
    Except PipelineErr Unit × Option String × Paths × PipeState :=
  match gtAcquire O is_color st0 with
  | (.error e, t, st) => (.error e, none, t, st)
  | (.ok _, t, st) =>
    let st1 := addEv st Ev.convert
    match O.convert with
    | .error e => (.error e, none, t, st1)
    | .ok jp =>
      let st2 : PipeState := { disk := insert jp st1.disk, events := st1.events ++ [Ev.upload] }
      match O.upload with
      | .error e => (.error e, some jp, t, st2)
      | .ok _ => (.ok (), some jp, t, st2)

/-- The `finally` clause of `generate_thumbnail` (lines 257-263): remove the
JPEG when one was produced and still exists, then remove every path ever
registered in the tracker that still exists (removing each such path once;
already-missing paths are skipped by the `os.path.exists` guard, which set
difference models exactly). -/
def finallyCleanup (jpg : Option String) (all : Finset String) (d : Finset String) :
    Finset String :=
  (match jpg with
   | some j => d.erase j
   | none => d) \ all

/-- The full result of one `generate_thumbnail` run: its returned URL or
raised exception, the final disk contents, the trace of effects, the final
tracker contents and the final `jpg_path`. -/
structure GTOut where
  result : Except PipelineErr String
  disk : Finset String
  events : List Ev
  allPaths : Finset String
  jpgPath : Option String

/-- Assemble the run outcome after the `finally` clause: on success
`generate_url(key)` is returned (line 264), after cleanup has run. -/
def finishGT (O : Oracles) (key : String)
    (r : Except PipelineErr Unit × Option String × Paths × PipeState) : GTOut :=
  { result := match r.1 with
              | .ok _ => .ok (O.sign key)
              | .error e => .error e
    disk := finallyCleanup r.2.1 r.2.2.1.all_paths r.2.2.2.disk
    events := r.2.2.2.events
    allPaths := r.2.2.1.all_paths
    jpgPath := r.2.1 }

/-- Embedding of `generate_thumbnail` (lines 231-264).  The rendering
parameters other than `color` only flow into the cache key; they are
abstracted as the key-value pair list `params_items` fed to
`key_for_jpeg`.  `color` is re-derived from the raw query parameter with
`request.args.get('color', 'false') != 'false'` (line 236).  On a cache
hit the presigned URL is returned with no further effect; otherwise the
`try`/`finally` body runs. -/
def generate_thumbnail (O : Oracles) (frame_id : Nat)
    (params_items : List (String × String)) (colorArg : Option String)
    (disk0 : Finset String) : GTOut :=
  let color := (colorArg.getD "false") != "false"
  let key := key_for_jpeg O.hash O.reprOrd frame_id params_items
  if key_exists O.headObject then
    { result := .ok (O.sign key), disk := disk0, events := [], allPaths := ∅, jpgPath := none }
  else
    finishGT O key (gtBody O color { disk := disk0, events := [] })

/-- Embedding of `handle_response` (lines 267-276) up to URL production:
raise 400 with the eligibility reason when `can_generate_thumbnail_on`
rejects, before any pipeline effect; otherwise run `generate_thumbnail`.
(The final redirect-or-JSON rendering of the URL is outside the claims.) -/
def handle_response (V VC : List String) (frame : FrameMeta)
    (colorArg : Option String) (O : Oracles) (params_items : List (String × String))
    (disk0 : Finset String) : GTOut :=
  let c := can_generate_thumbnail_on V VC frame colorArg
  if c.result then
    generate_thumbnail O frame.id params_items colorArg disk0
  else
    { result := .error (PipelineErr.app
        { message := c.reason, status_code := 400, payload := .empty })
      disk := disk0, events := [], allPaths := ∅, jpgPath := none }

/-- Outcome of the count check in the basename endpoint: a raised
`ThumbnailAppException`, a plain Python error (the `frames['results'][0]`
index error when the listing is inconsistent), or the single frame handed
to `handle_response`. -/
inductive BnOutcome where
  | appError (e : AppErr) : BnOutcome
  | pythonError : BnOutcome
  | proceeds (f : FrameMeta) : BnOutcome
deriving DecidableEq, Repr

/-- Embedding of the frame-selection logic of `bn_thumbnail` (lines
279-290), given the `count` and `results` fields of the upstream listing:
`if not frames['count'] == 1` raises the 404, otherwise
`frames['results'][0]` is processed. -/
def bn_thumbnail (count : Nat) (results : List FrameMeta) : BnOutcome :=
  if count ≠ 1 then
    .appError { message := "Not found", status_code := 404, payload := .empty }
  else
    match results with
    | f :: _ => .proceeds f
    | [] => .pythonError

/-! ## Theorems -/

/-- C8: the existence check is total and best-effort — `key_exists` is a
total function into `Bool` (it cannot raise), returning `true` when the
`head_object` call succeeds and `false` on any error whatsoever. -/
theorem key_exists_best_effort :
    key_exists (Except.ok () : Except Unit Unit) = true ∧
    ∀ (ε : Type) (e : ε), key_exists (Except.error e : Except ε Unit) = false :=
  ⟨rfl, fun _ _ => rfl⟩

/-- C10: the basename endpoint raises `Not found` with status 404 whenever
the upstream listing reports a count different from exactly 1, and with
count 1 it proceeds with the single returned frame; multiple matches are
never resolved by picking one. -/
theorem bn_thumbnail_count_check :
    (∀ (count : Nat) (results : List FrameMeta), count ≠ 1 →
        bn_thumbnail count results =
          BnOutcome.appError
            { message := "Not found", status_code := 404, payload := .empty }) ∧
    (∀ (f : FrameMeta) (rest : List FrameMeta),
        bn_thumbnail 1 (f :: rest) = BnOutcome.proceeds f) := by
  constructor
  · intro count results h
    simp [bn_thumbnail, h]
  · intro f rest
    simp [bn_thumbnail]

/-- Witness for C10: zero matches and two matches both yield the 404. -/
theorem bn_thumbnail_count_check_witness :
    bn_thumbnail 0 [] =
      BnOutcome.appError
        { message := "Not found", status_code := 404, payload := Payload.empty } ∧
    bn_thumbnail 2
        [{ id := 1, configuration_type := none, request_id := none, filename := none }] =
      BnOutcome.appError
        { message := "Not found", status_code := 404, payload := Payload.empty } :=
  ⟨bn_thumbnail_count_check.1 0 [] (by decide),
   bn_thumbnail_count_check.1 2
     [{ id := 1, configuration_type := none, request_id := none, filename := none }]
     (by decide)⟩

/-- C5 counterexample: a 304 response is returned unchanged by
`get_response` although it is not a 2xx response, so the claimed five-way
classification (under which only successful 2xx responses are returned
unchanged) does not cover the behavior of the code. -/
theorem get_response_304_counterexample :
    get_response "u" none (HttpOutcome.response 304 none) = Except.ok (304, none) ∧
    ¬ (200 ≤ 304 ∧ 304 < 300) := by
  exact ⟨rfl, by decide⟩

/-- C5 (amended): every `get_response` outcome is classified as — timeout
raises 504 with the url and params as payload; no response or a 5xx status
raises 502; a 404 raises 404 with message `Not found`; any other 4xx raises
with the original status, attaching the parsed JSON body when it parses and
nothing otherwise; any response on which the status check does not raise
(status outside 400-599, which includes every 2xx) is returned unchanged. -/
theorem get_response_classification :
    ∀ (url : String) (params : Option String) (o : HttpOutcome),
      get_response url params o = get_response_spec url params o := by
  intro url params o
  cases o with
  | timeout => rfl
  | noResponse => rfl
  | response s body =>
    have H : s < 400 ∨ (400 ≤ s ∧ s < 500 ∧ s ≠ 404) ∨ s = 404 ∨
        (500 ≤ s ∧ s < 600) ∨ 600 ≤ s := by omega
    rcases H with h | ⟨ha, hb, hc⟩ | h | ⟨ha, hb⟩ | h
    · have e1 : ¬ 400 ≤ s := by omega
      have e3 : ¬ 500 ≤ s := by omega
      have e4 : s ≠ 404 := by omega
      simp [get_response, get_response_spec, raise_for_status_raises, e1, e3, e4]
    · have h6 : s < 600 := by omega
      have hn5 : ¬ 500 ≤ s := by omega
      simp [get_response, get_response_spec, raise_for_status_raises, ha, hb, hc, h6, hn5]
    · subst h
      rfl
    · have h4 : 400 ≤ s := by omega
      have hne : s ≠ 404 := by omega
      simp [get_response, get_response_spec, raise_for_status_raises, ha, hb, h4, hne]
    · have hb : ¬ s < 600 := by omega
      have hc : s ≠ 404 := by omega
      have hd : ¬ s < 500 := by omega
      simp [get_response, get_response_spec, raise_for_status_raises, hb, hc, hd]

/-- C2 (code bug): the cache key is not a function of the parameter set —
`repr(frozenset(params.items()))` serializes the items in the iteration
order the process produces, and an order consistent with what CPython
guarantees (`FrozensetOrder`: a permutation of the distinct items,
realized e.g. when the two item tuples collide in the 8-slot table, or
across two worker processes with different `PYTHONHASHSEED` values) makes
two permuted-but-equal parameter mappings hash different canonical
representations and so produce different keys, against the claimed (and
spec-required) order-independence. -/
theorem key_for_jpeg_order_dependence :
    FrozensetOrder (fun l => l.dedup) ∧
    ([("width", "200"), ("height", "300")] : List (String × String)).Perm
      [("height", "300"), ("width", "200")] ∧
    key_for_jpeg (fun s => s) (fun l => l.dedup) 7
        [("width", "200"), ("height", "300")] ≠
      key_for_jpeg (fun s => s) (fun l => l.dedup) 7
        [("height", "300"), ("width", "200")] :=
  ⟨fun _ => List.Perm.refl _, by decide, by decide⟩

/-- When each band has a first matching frame, `rvb_frames` returns the
three of them in band order. -/
lemma rvb_frames_eq_ok (frames : List RFrame) :
    ∀ r v b : RFrame,
      frames.find? (fun f => ["R", "rp"].contains f.primary_optical_element) = some r →
      frames.find? (fun f => ["V"].contains f.primary_optical_element) = some v →
      frames.find? (fun f => ["B"].contains f.primary_optical_element) = some b →
      rvb_frames frames = .ok [r, v, b] := by
  intro r v b h1 h2 h3
  unfold rvb_frames select_color
  rw [h1, h2, h3]

/-- When some band has no matching frame, `rvb_frames` raises the 404. -/
lemma rvb_frames_eq_err (frames : List RFrame) :
    (frames.find? (fun f => ["R", "rp"].contains f.primary_optical_element) = none ∨
     frames.find? (fun f => ["V"].contains f.primary_optical_element) = none ∨
     frames.find? (fun f => ["B"].contains f.primary_optical_element) = none) →
    rvb_frames frames =
      .error { message := "RVB frames not found", status_code := 404, payload := .empty } := by
  intro h
  unfold rvb_frames select_color
  rcases h with h | h | h
  · rw [h]
  · rw [h]
    cases frames.find? (fun f => ["R", "rp"].contains f.primary_optical_element) <;> rfl
  · rw [h]
    cases frames.find? (fun f => ["R", "rp"].contains f.primary_optical_element) <;>
      cases frames.find? (fun f => ["V"].contains f.primary_optical_element) <;> rfl

/-- C6: band selection — `rvb_frames` either returns exactly the three
first-matching frames in the fixed order `[red, visual, blue]` (red aliases
`R`/`rp`, visual `V`, blue `B`), or, when any band has no matching frame,
raises the 404 `RVB frames not found` error; a successful result is never
partial. -/
theorem rvb_frames_band_selection :
    ∀ frames : List RFrame,
      (∀ r v b : RFrame,
        frames.find? (fun f => ["R", "rp"].contains f.primary_optical_element) = some r →
        frames.find? (fun f => ["V"].contains f.primary_optical_element) = some v →
        frames.find? (fun f => ["B"].contains f.primary_optical_element) = some b →
        rvb_frames frames = .ok [r, v, b]) ∧
      ((frames.find? (fun f => ["R", "rp"].contains f.primary_optical_element) = none ∨
        frames.find? (fun f => ["V"].contains f.primary_optical_element) = none ∨
        frames.find? (fun f => ["B"].contains f.primary_optical_element) = none) →
        rvb_frames frames =
          .error { message := "RVB frames not found", status_code := 404, payload := .empty }) ∧
      (∀ sel, rvb_frames frames = .ok sel →
        ∃ r v b, sel = [r, v, b] ∧
          frames.find? (fun f => ["R", "rp"].contains f.primary_optical_element) = some r ∧
          frames.find? (fun f => ["V"].contains f.primary_optical_element) = some v ∧
          frames.find? (fun f => ["B"].contains f.primary_optical_element) = some b) := by
  intro frames
  refine ⟨rvb_frames_eq_ok frames, rvb_frames_eq_err frames, ?_⟩
  intro sel hsel
  cases hr : frames.find? (fun f => ["R", "rp"].contains f.primary_optical_element) with
  | none =>
    rw [rvb_frames_eq_err frames (Or.inl hr)] at hsel
    exact absurd hsel (by simp)
  | some r =>
    cases hv : frames.find? (fun f => ["V"].contains f.primary_optical_element) with
    | none =>
      rw [rvb_frames_eq_err frames (Or.inr (Or.inl hv))] at hsel
      exact absurd hsel (by simp)
    | some v =>
      cases hb : frames.find? (fun f => ["B"].contains f.primary_optical_element) with
      | none =>
        rw [rvb_frames_eq_err frames (Or.inr (Or.inr hb))] at hsel
        exact absurd hsel (by simp)
      | some b =>
        rw [rvb_frames_eq_ok frames r v b hr hv hb] at hsel
        exact ⟨r, v, b, (Except.ok.inj hsel).symm, rfl, rfl, rfl⟩

/-- Witness for C6: with one candidate per band given in the order
`[V, B, rp]`, the output is `[red, visual, blue]`; with the blue band
missing, the 404 is raised. -/
theorem rvb_frames_band_selection_witness :
    rvb_frames
        [{ primary_optical_element := "V" }, { primary_optical_element := "B" },
         { primary_optical_element := "rp" }] =
      .ok [{ primary_optical_element := "rp" }, { primary_optical_element := "V" },
           { primary_optical_element := "B" }] ∧
    rvb_frames [{ primary_optical_element := "R" }, { primary_optical_element := "V" }] =
      .error { message := "RVB frames not found", status_code := 404, payload := .empty } :=
  ⟨(rvb_frames_band_selection
      [{ primary_optical_element := "V" }, { primary_optical_element := "B" },
       { primary_optical_element := "rp" }]).1
      { primary_optical_element := "rp" } { primary_optical_element := "V" }
      { primary_optical_element := "B" } (by decide) (by decide) (by decide),
   (rvb_frames_band_selection
      [{ primary_optical_element := "R" }, { primary_optical_element := "V" }]).2.1
      (Or.inr (Or.inr (by decide)))⟩

/-- The `finally` cleanup leaves no registered path and no produced JPEG on
disk. -/
lemma finallyCleanup_absent (jpg : Option String) (all d : Finset String) :
    (∀ p ∈ all, p ∉ finallyCleanup jpg all d) ∧
    (∀ j, jpg = some j → j ∉ finallyCleanup jpg all d) := by
  constructor
  · intro p hp
    simp only [finallyCleanup, Finset.mem_sdiff, not_and, not_not]
    intro _
    exact hp
  · intro j hj
    subst hj
    simp [finallyCleanup, Finset.mem_sdiff, Finset.mem_erase]

/-- Any run that reaches the `try` block ends with every registered path and
any produced JPEG absent from disk. -/
lemma finishGT_clean (O : Oracles) (key : String)
    (r : Except PipelineErr Unit × Option String × Paths × PipeState) :
    (∀ p ∈ (finishGT O key r).allPaths, p ∉ (finishGT O key r).disk) ∧
    (∀ j, (finishGT O key r).jpgPath = some j → j ∉ (finishGT O key r).disk) := by
  simp only [finishGT]
  exact finallyCleanup_absent r.2.1 r.2.2.1.all_paths r.2.2.2.disk

/-- C1: cleanup totality — for every invocation of `generate_thumbnail`,
whatever the outcome of every step (fetch, band selection, alignment,
conversion, upload: all outcome combinations are quantified through the
oracles), every path ever registered in the `Paths` tracker, and the JPEG
output path if one was produced, is absent from disk when control returns;
the set-based tracker removes duplicates once, and the cleanup skips
already-missing paths by construction. -/
theorem generate_thumbnail_cleanup_totality :
    ∀ (O : Oracles) (frame_id : Nat) (params_items : List (String × String))
      (colorArg : Option String) (disk0 : Finset String),
      (∀ p ∈ (generate_thumbnail O frame_id params_items colorArg disk0).allPaths,
          p ∉ (generate_thumbnail O frame_id params_items colorArg disk0).disk) ∧
      (∀ j, (generate_thumbnail O frame_id params_items colorArg disk0).jpgPath = some j →
          j ∉ (generate_thumbnail O frame_id params_items colorArg disk0).disk) := by
  intro O frame_id params_items colorArg disk0
  cases hb : key_exists O.headObject with
  | true =>
    constructor
    · intro p hp
      simp [generate_thumbnail, hb] at hp
    · intro j hj
      simp [generate_thumbnail, hb] at hj
  | false =>
    simp only [generate_thumbnail, hb, Bool.false_eq_true, if_false]
    exact finishGT_clean O _ _

/-- Concrete oracle for a fully successful grayscale cache-miss run: the
frame downloads to `t0`, conversion produces `jp`, upload succeeds. -/
def O_run : Oracles :=
  { headObject := .error (), hash := fun _ => "d", reprOrd := fun l => l, sign := fun k => k,
    fetch := fun _ => ("t0", none), listFrames := .ok [], mkT := .ok [],
    convert := .ok "jp", upload := .ok () }

/-- Witness for C1: in the concrete successful run both the registered
temp path and the produced JPEG are absent at the end. -/
theorem generate_thumbnail_cleanup_totality_witness :
    "t0" ∉ (generate_thumbnail O_run 1 [] none ∅).disk ∧
    "jp" ∉ (generate_thumbnail O_run 1 [] none ∅).disk :=
  ⟨(generate_thumbnail_cleanup_totality O_run 1 [] none ∅).1 "t0" (by decide),
   (generate_thumbnail_cleanup_totality O_run 1 [] none ∅).2 "jp" (by decide)⟩

/-- C4: cache short-circuit — when the storage existence check for the
derived cache key returns true, `generate_thumbnail` returns the presigned
URL for that key and performs no raw-byte fetch, no sibling-frame listing,
no band selection, no alignment, no conversion and no upload (the event
trace is empty), and leaves the disk untouched. -/
theorem generate_thumbnail_cache_short_circuit :
    ∀ (O : Oracles) (frame_id : Nat) (params_items : List (String × String))
      (colorArg : Option String) (disk0 : Finset String),
      key_exists O.headObject = true →
      generate_thumbnail O frame_id params_items colorArg disk0 =
        { result := .ok (O.sign (key_for_jpeg O.hash O.reprOrd frame_id params_items)),
          disk := disk0, events := [], allPaths := ∅, jpgPath := none } := by
  intro O frame_id params_items colorArg disk0 h
  simp [generate_thumbnail, h]

/-- Concrete oracle for a cache-hit run: `head_object` succeeds. -/
def O_hit : Oracles :=
  { headObject := .ok (), hash := fun _ => "d", reprOrd := fun l => l, sign := fun k => k,
    fetch := fun _ => ("t0", none), listFrames := .ok [], mkT := .ok [],
    convert := .ok "jp", upload := .ok () }

/-- Witness for C4: the concrete cache-hit run returns the signed key with
an empty effect trace. -/
theorem generate_thumbnail_cache_short_circuit_witness :
    generate_thumbnail O_hit 1 [] none ∅ =
      { result := .ok (O_hit.sign (key_for_jpeg O_hit.hash O_hit.reprOrd 1 [])),
        disk := ∅, events := [], allPaths := ∅, jpgPath := none } :=
  generate_thumbnail_cache_short_circuit O_hit 1 [] none ∅ rfl

/-- C7: eligibility gating — `handle_response` raises status 400 before any
pipeline effect (its event trace is empty) exactly when the eligibility
check rejects, and the check rejects if and only if a required frame
metadata field is absent, or the configuration type is not in the allowed
set `V`, or color is requested (`color=true`) and the frame has no truthy
`request_id`, or color is requested and the configuration type is not in
the color-eligible set `VC`, or the filename ends in neither `.fits` nor
`.fits.fz`; otherwise `handle_response` proceeds to `generate_thumbnail`. -/
theorem handle_response_eligibility :
    ∀ (V VC : List String) (frame : FrameMeta) (colorArg : Option String)
      (O : Oracles) (params_items : List (String × String)) (disk0 : Finset String),
      ((can_generate_thumbnail_on V VC frame colorArg).result = false ↔
        (frame_has_required_validation_keys frame = false ∨
         pyUpper (frame.configuration_type.getD "") ∉ V ∨
         (((colorArg.getD "false") == "true") = true ∧
           truthyNat frame.request_id = false) ∨
         (((colorArg.getD "false") == "true") = true ∧
           pyUpper (frame.configuration_type.getD "") ∉ VC) ∨
         ((pyEndsWith (frame.filename.getD "") ".fits") ||
          (pyEndsWith (frame.filename.getD "") ".fits.fz")) = false)) ∧
      ((can_generate_thumbnail_on V VC frame colorArg).result = false →
        (handle_response V VC frame colorArg O params_items disk0).result =
          .error (PipelineErr.app
            { message := (can_generate_thumbnail_on V VC frame colorArg).reason,
              status_code := 400, payload := .empty }) ∧
        (handle_response V VC frame colorArg O params_items disk0).events = []) ∧
      ((can_generate_thumbnail_on V VC frame colorArg).result = true →
        handle_response V VC frame colorArg O params_items disk0 =
          generate_thumbnail O frame.id params_items colorArg disk0) := by
  intro V VC frame colorArg O params_items disk0
  refine ⟨?_, ?_, ?_⟩
  · cases hreq : frame_has_required_validation_keys frame <;>
      by_cases hV : pyUpper (frame.configuration_type.getD "") ∈ V <;>
        cases hc : (colorArg.getD "false") == "true" <;>
          cases hrid : truthyNat frame.request_id <;>
            by_cases hVC : pyUpper (frame.configuration_type.getD "") ∈ VC <;>
              cases hfits : (pyEndsWith (frame.filename.getD "") ".fits") ||
                  (pyEndsWith (frame.filename.getD "") ".fits.fz") <;>
                simp [can_generate_thumbnail_on, hreq, hV, hc, hrid, hVC, hfits]
  · intro h
    constructor
    · simp [handle_response, h]
    · simp [handle_response, h]
  · intro h
    simp [handle_response, h]

/-- Witness for C7: a frame whose `configuration_type` is missing is
rejected with status 400 and an empty effect trace. -/
theorem handle_response_eligibility_witness :
    (handle_response [] []
        { id := 3, configuration_type := none, request_id := none, filename := none }
        none O_hit [] ∅).result =
      .error (PipelineErr.app
        { message := (can_generate_thumbnail_on [] []
            { id := 3, configuration_type := none, request_id := none, filename := none }
            none).reason,
          status_code := 400, payload := .empty }) ∧
    (handle_response [] []
        { id := 3, configuration_type := none, request_id := none, filename := none }
        none O_hit [] ∅).events = [] :=
  (handle_response_eligibility [] []
      { id := 3, configuration_type := none, request_id := none, filename := none }
      none O_hit [] ∅).2.1 (by decide)

/-- Concrete oracle for the C9 run: cache miss, and the sibling-frame
listing raises, so the trace records exactly the color acquisition entry. -/
def O_color : Oracles :=
  { headObject := .error (), hash := fun _ => "d", reprOrd := fun l => l, sign := fun k => k,
    fetch := fun _ => ("t0", none), listFrames := .error .other, mkT := .ok [],
    convert := .ok "jp", upload := .ok () }

/-- A frame with no observation request id (`request_id` null). -/
def frame_no_request : FrameMeta :=
  { id := 5, configuration_type := some "EXPOSE", request_id := none,
    filename := some "a.fits" }

/-- C9: the two sites interpreting the `color` query parameter disagree on
inputs other than the literals `true`/`false` — for `color=True` the
eligibility check does not treat the request as color (it compares with
`== 'true'`), while `generate_thumbnail` does (it compares with
`!= 'false'`); hence a frame with no `request_id` passes the eligibility
check and is processed through the color acquisition path (the run begins
with the sibling-frame listing). -/
theorem color_param_interpretation_mismatch :
    (can_generate_thumbnail_on ["EXPOSE"] ["EXPOSE"] frame_no_request
        (some "True")).result = true ∧
    (((some "True" : Option String).getD "false") == "true") = false ∧
    (((some "True" : Option String).getD "false") != "false") = true ∧
    (handle_response ["EXPOSE"] ["EXPOSE"] frame_no_request (some "True")
        O_color [] ∅).events = [Ev.listFrames] := by
  decide

/-- Running the alignment loop on at most 2 identifications with a raise
somewhere in the run produces at most one aligned file: either none (disk
untouched) or exactly one freshly written path. -/
lemma alignLoop_raised_small (ids : List Ident) (disk : Finset String) :
    ids.length ≤ 2 → loopRaised ids = true →
    ((alignLoop ids [] disk).1 = [] ∧ (alignLoop ids [] disk).2 = disk) ∨
    ∃ p, (alignLoop ids [] disk).1 = [p] ∧ (alignLoop ids [] disk).2 = insert p disk := by
  intro hlen hr
  rcases ids with _ | ⟨i, _ | ⟨j, _ | ⟨k, rest⟩⟩⟩
  · simp [loopRaised] at hr
  · cases hok : i.ok with
    | false => simp [loopRaised, hok] at hr
    | true =>
      cases hres : i.result with
      | ok p => simp [loopRaised, hok, hres] at hr
      | error u => left; simp [alignLoop, hok, hres]
  · cases hok : i.ok with
    | false =>
      cases hjok : j.ok with
      | false => simp [loopRaised, hok, hjok] at hr
      | true =>
        cases hjres : j.result with
        | ok q => simp [loopRaised, hok, hjok, hjres] at hr
        | error u => left; simp [alignLoop, hok, hjok, hjres]
    | true =>
      cases hres : i.result with
      | error u => left; simp [alignLoop, hok, hres]
      | ok p =>
        cases hjok : j.ok with
        | false => simp [loopRaised, hok, hres, hjok] at hr
        | true =>
          cases hjres : j.result with
          | ok q => simp [loopRaised, hok, hres, hjok, hjres] at hr
          | error u =>
            right
            exact ⟨p, by simp [alignLoop, hok, hres, hjok, hjres]⟩
  · simp at hlen

/-- Never a partial alignment: `reproject_files` never returns one: the result is the
original input list or the reference followed by exactly two files. -/
lemma reproject_files_shape (mkT : Except Unit (List Ident)) (ref : String)
    (imgs : List String) (disk : Finset String) :
    (reproject_files mkT ref imgs disk).1 = imgs ∨
    ∃ a b, (reproject_files mkT ref imgs disk).1 = [ref, a, b] := by
  by_cases h : (reproject_step mkT disk).1.length = 2
  · rcases List.length_eq_two.mp h with ⟨a, b, hab⟩
    right
    exact ⟨a, b, by simp [reproject_files, h, hab]⟩
  · left
    simp [reproject_files, h]

/-- C3: alignment fallback — `reproject_files` returns either exactly 3
paths (the reference plus exactly 2 newly aligned files) or the original
unaligned input, never a 1- or 2-aligned partial result; when
`make_transforms` raises the original input is returned with the disk
untouched; and when the alignment attempt raises mid-run (with at most the
2 identifications `make_transforms` can produce for the 2 secondary
frames), every aligned file already produced is deleted from disk and the
original unaligned input is returned. -/
theorem reproject_files_alignment_fallback :
    ∀ (mkT : Except Unit (List Ident)) (ref : String) (imgs : List String)
      (disk : Finset String),
      ((reproject_files mkT ref imgs disk).1 = imgs ∨
        ∃ a b, (reproject_files mkT ref imgs disk).1 = [ref, a, b]) ∧
      (mkT = .error () →
        (reproject_files mkT ref imgs disk).1 = imgs ∧
        (reproject_files mkT ref imgs disk).2 = disk) ∧
      (∀ ids, mkT = .ok ids → ids.length ≤ 2 → loopRaised ids = true →
        (reproject_files mkT ref imgs disk).1 = imgs ∧
        ∀ p ∈ (alignLoop ids [] disk).1, p ∉ (reproject_files mkT ref imgs disk).2) := by
  intro mkT ref imgs disk
  refine ⟨reproject_files_shape mkT ref imgs disk, ?_, ?_⟩
  · intro h
    subst h
    exact ⟨rfl, rfl⟩
  · intro ids hmk hlen hr
    subst hmk
    rcases alignLoop_raised_small ids disk hlen hr with ⟨h1, h2⟩ | ⟨p, h1, h2⟩
    · constructor
      · simp [reproject_files, reproject_step, h1, h2, cleanup_aligned]
      · intro q hq
        rw [h1] at hq
        simp at hq
    · constructor
      · simp [reproject_files, reproject_step, h1, h2, cleanup_aligned]
      · intro q hq
        rw [h1] at hq
        simp at hq
        subst hq
        simp [reproject_files, reproject_step, h1, h2, cleanup_aligned]

/-- Witness for C3: one aligned file is produced, then the second
`affineremap` raises — the original list comes back and the produced file
`a1` is gone from disk. -/
theorem reproject_files_alignment_fallback_witness :
    (reproject_files (Except.ok [⟨true, Except.ok "a1"⟩, ⟨true, Except.error ()⟩])
        "r" ["r", "x", "y"] ∅).1 = ["r", "x", "y"] ∧
    "a1" ∉ (reproject_files (Except.ok [⟨true, Except.ok "a1"⟩, ⟨true, Except.error ()⟩])
        "r" ["r", "x", "y"] ∅).2 :=
  have h := (reproject_files_alignment_fallback
      (Except.ok [⟨true, Except.ok "a1"⟩, ⟨true, Except.error ()⟩])
      "r" ["r", "x", "y"] ∅).2.2
      [⟨true, Except.ok "a1"⟩, ⟨true, Except.error ()⟩] rfl (by decide) (by decide)
  ⟨h.1, h.2 "a1" (by decide)⟩

end ThumbService
